import Mathlib

/-!
Shallow embedding of drivers/gpu/drm/meson/meson_osd_afbcd.c, the Amlogic
AFBC decoder driver for the GXM (generation 1) and G12A (generation 2)
SoC families, together with theorems settling the specification claims.

Machine integers are modelled as Nat with explicit truncation (mod 2^32)
where the C code relies on u32 wrap-around.  Register writes are modelled
as an explicit trace of events; each lifecycle operation returns the trace
of writes it performs together with its C int return value.
-/

namespace MesonOsdAfbcd

/-- DRM fourcc code of XRGB8888, from include/uapi/drm/drm_fourcc.h:
fourcc_code of the characters X, R, 2, 4. -/
def DRM_FORMAT_XRGB8888 : Nat := 0x34325258

/-- DRM fourcc code of ARGB8888 (characters A, R, 2, 4). -/
def DRM_FORMAT_ARGB8888 : Nat := 0x34325241

/-- DRM fourcc code of XBGR8888 (characters X, B, 2, 4). -/
def DRM_FORMAT_XBGR8888 : Nat := 0x34324258

/-- DRM fourcc code of ABGR8888 (characters A, B, 2, 4). -/
def DRM_FORMAT_ABGR8888 : Nat := 0x34324241

/-- DRM fourcc code of RGB888 (characters R, G, 2, 4). -/
def DRM_FORMAT_RGB888 : Nat := 0x34324752

/-- DRM fourcc code of RGB565 (characters R, G, 1, 6). -/
def DRM_FORMAT_RGB565 : Nat := 0x36314752

/-- AFBC modifier flag YTR, bit 4 of the modifier (drm_fourcc.h). -/
def AFBC_FORMAT_MOD_YTR : Nat := 2 ^ 4

/-- AFBC modifier flag SPLIT, bit 5 of the modifier (drm_fourcc.h). -/
def AFBC_FORMAT_MOD_SPLIT : Nat := 2 ^ 5

/-- AFBC modifier flag SPARSE, bit 6 of the modifier (drm_fourcc.h). -/
def AFBC_FORMAT_MOD_SPARSE : Nat := 2 ^ 6

/-- AFBC modifier flag TILED, bit 8 of the modifier (drm_fourcc.h). -/
def AFBC_FORMAT_MOD_TILED : Nat := 2 ^ 8

/-- AFBC block-size selector field mask, low 4 bits of the modifier. -/
def AFBC_FORMAT_MOD_BLOCK_SIZE_MASK : Nat := 0xf

/-- AFBC block-size selector value for 32x8 wide superblocks. -/
def AFBC_FORMAT_MOD_BLOCK_SIZE_32x8 : Nat := 2

/-- The errno constant EINVAL (the driver returns -EINVAL on unsupported
format/modifier combinations). -/
def EINVAL : Int := 22

/-- Internal format code used by the GXM decoder for the two supported
RGB32 layouts (OSD1_AFBCD_RGB32 in the source). -/
def OSD1_AFBCD_RGB32 : Int := 0x15

/-- G12A Mali AFBC internal format code MAFBC_FMT_RGB565 (source enum). -/
def MAFBC_FMT_RGB565 : Int := 0

/-- G12A Mali AFBC internal format code MAFBC_FMT_RGB888 (source enum). -/
def MAFBC_FMT_RGB888 : Int := 4

/-- G12A Mali AFBC internal format code MAFBC_FMT_RGBA8888 (source enum). -/
def MAFBC_FMT_RGBA8888 : Int := 5

/-- Modelled from the spec: block-mode code for RGBA8888 surfaces handed to
the pixel composer; defined in meson_registers.h, which is not under
src/.  Only its nonnegativity matters to any claim. -/
def OSD_MALI_COLOR_MODE_RGBA8888 : Int := 5 * 2 ^ 8

/-- Modelled from the spec: block-mode code for RGB888 surfaces
(meson_registers.h, not under src/). -/
def OSD_MALI_COLOR_MODE_RGB888 : Int := 7 * 2 ^ 8

/-- Modelled from the spec: block-mode code for RGB565 surfaces
(meson_registers.h, not under src/). -/
def OSD_MALI_COLOR_MODE_RGB565 : Int := 2 * 2 ^ 8

/-- Registers touched by the driver.  Offsets are irrelevant to the claims,
so registers are identified by name. -/
inductive Reg
  | VIU_SW_RESET
  | OSD1_AFBCD_ENABLE
  | OSD1_AFBCD_MODE
  | OSD1_AFBCD_SIZE_IN
  | OSD1_AFBCD_HDR_PTR
  | OSD1_AFBCD_FRAME_PTR
  | OSD1_AFBCD_CHROMA_PTR
  | OSD1_AFBCD_CONV_CTRL
  | OSD1_AFBCD_PIXEL_HSCOPE
  | OSD1_AFBCD_PIXEL_VSCOPE
  | MALI_AFBCD_TOP_CTRL
  | VPU_MAFBC_IRQ_MASK
  | VPU_MAFBC_SURFACE_CFG
  | VPU_MAFBC_COMMAND
  | VPU_MAFBC_FORMAT_SPECIFIER_S0
  | VPU_MAFBC_HEADER_BUF_ADDR_LOW_S0
  | VPU_MAFBC_HEADER_BUF_ADDR_HIGH_S0
  | VPU_MAFBC_BUFFER_WIDTH_S0
  | VPU_MAFBC_BUFFER_HEIGHT_S0
  | VPU_MAFBC_BOUNDING_BOX_X_START_S0
  | VPU_MAFBC_BOUNDING_BOX_X_END_S0
  | VPU_MAFBC_BOUNDING_BOX_Y_START_S0
  | VPU_MAFBC_BOUNDING_BOX_Y_END_S0
  | VPU_MAFBC_OUTPUT_BUF_ADDR_LOW_S0
  | VPU_MAFBC_OUTPUT_BUF_ADDR_HIGH_S0
  | VPU_MAFBC_OUTPUT_BUF_STRIDE_S0
  deriving DecidableEq, BEq

/-- One observable effect of a lifecycle operation: a direct MMIO write
(writel_relaxed), a direct masked write (writel_bits_relaxed), a
synchronized write queued on the RDMA transport (meson_rdma_writel_sync),
or one of the RDMA transport management calls. -/
inductive Event
  | write (reg : Reg) (val : Nat)
  | writeBits (reg : Reg) (mask : Nat) (val : Nat)
  | syncWrite (reg : Reg) (val : Nat)
  | rdmaInit
  | rdmaSetup
  | rdmaReset
  | rdmaFlush
  deriving DecidableEq, BEq

/-- Buffer descriptor: the inputs setup reads from the device structure,
namely priv.afbcd.format, priv.afbcd.modifier, priv.viu.osd1_addr,
priv.viu.osd1_width and priv.viu.osd1_height. -/
structure Desc where
  format : Nat
  modifier : Nat
  addr : Nat
  width : Nat
  height : Nat
  deriving DecidableEq

/-- Modelled from the spec: outcome of the synchronized-transport
initialization primitive (meson_rdma_init, whose implementation is not
under src/); it returns 0 on success and a negative errno on failure,
which the caller propagates.  The remaining transport primitives
(meson_rdma_setup, meson_rdma_reset, meson_rdma_writel_sync,
meson_rdma_flush) are called by the source as statements whose results
are not captured, matching their void signatures, so they are modelled
as infallible events. -/
structure Rdma where
  initRet : Int

/-- Modelled from the spec: mask of all 32 register bits; registers are
32-bit, so the complement in writel_bits_relaxed is taken within u32. -/
def U32_MASK : Nat := 0xffffffff

/-- Lowest set bit of a mask (the value 2 ^ ffs(mask - 1)); for mask = 0
this is 0.  Used to express the shift of FIELD_PREP as a multiplication. -/
def lowestSetBit (mask : Nat) : Nat := mask &&& (mask ^^^ (mask - 1))

/-- The kernel macro FIELD_PREP(mask, val) = ((val) << __bf_shf(mask)) &
(mask); the left shift by the mask's trailing-zero count is expressed as
multiplication by the mask's lowest set bit. -/
def fieldPrep (mask v : Nat) : Nat := (v * lowestSetBit mask) &&& mask

/-- Conversion of a C int to u32 (two's-complement truncation). -/
def u32ofInt (i : Int) : Nat := (i % (2 ^ 32 : Int)).toNat

/-- u32 subtraction of 1 (wraps at zero), as in osd1_width - 1 on u32. -/
def u32sub1 (n : Nat) : Nat := (n + 0xffffffff) % 2 ^ 32

/-- The kernel macro ALIGN(x, 32) = (x + 31) & ~31 evaluated on a u32
operand; clearing the low five bits equals dividing and re-multiplying
by 32, since 32 is a power of two. -/
def ALIGN32 (n : Nat) : Nat := (((n + 31) % 2 ^ 32) / 32) * 32

/-- Modelled from the spec: field masks and bit constants of
meson_registers.h and meson_osd_afbcd.h, which are not under src/.  The
SIZE_IN field masks follow the spec's vertical-then-horizontal field
order (vertical size in the upper half-word); the remaining positions
are placeholders no claim depends on. -/
def VIU_SW_RESET_OSD1_AFBCD : Nat := 2 ^ 31

/-- Modelled from the spec: FIFO threshold field of OSD1_AFBCD_ENABLE
(meson_registers.h, not under src/). -/
def OSD1_AFBCD_ID_FIFO_THRD : Nat := 0xfe00

/-- Modelled from the spec: decode-enable bit of OSD1_AFBCD_ENABLE
(meson_registers.h, not under src/). -/
def OSD1_AFBCD_DEC_ENABLE : Nat := 2 ^ 8

/-- Modelled from the spec: MIF urgency field of the GXM mode word
(meson_registers.h, not under src/). -/
def OSD1_AFBCD_MIF_URGENT : Nat := 0xc0

/-- Modelled from the spec: hold-line-count field of the GXM mode word
(meson_registers.h, not under src/). -/
def OSD1_AFBCD_HOLD_LINE_NUM : Nat := 0x1f000

/-- Modelled from the spec: RGBA channel-exchange field of the GXM mode
word (meson_registers.h, not under src/). -/
def OSD1_AFBCD_RGBA_EXCHAN_CTRL : Nat := 0xff000000

/-- Modelled from the spec: half-block bit of the GXM mode word, set when
the SPARSE layout modifier is present (meson_registers.h, not under
src/). -/
def OSD1_AFBCD_HREG_HALF_BLOCK : Nat := 2 ^ 9

/-- Modelled from the spec: block-split bit of the GXM mode word
(meson_registers.h, not under src/). -/
def OSD1_AFBCD_HREG_BLOCK_SPLIT : Nat := 2 ^ 10

/-- Modelled from the spec: vertical input-size field of
OSD1_AFBCD_SIZE_IN; per the spec's vertical-then-horizontal field order
it occupies the upper 16 bits (meson_registers.h, not under src/). -/
def OSD1_AFBCD_HREG_VSIZE_IN : Nat := 0xffff0000

/-- Modelled from the spec: horizontal input-size field of
OSD1_AFBCD_SIZE_IN, the lower 16 bits (meson_registers.h, not under
src/). -/
def OSD1_AFBCD_HREG_HSIZE_IN : Nat := 0xffff

/-- Modelled from the spec: horizontal scope begin field
(meson_registers.h, not under src/; position irrelevant to the claims). -/
def OSD1_AFBCD_DEC_PIXEL_BGN_H : Nat := 0xffff

/-- Modelled from the spec: horizontal scope end field
(meson_registers.h, not under src/; position irrelevant to the claims). -/
def OSD1_AFBCD_DEC_PIXEL_END_H : Nat := 0xffff0000

/-- Modelled from the spec: vertical scope begin field
(meson_registers.h, not under src/; position irrelevant to the claims). -/
def OSD1_AFBCD_DEC_PIXEL_BGN_V : Nat := 0xffff

/-- Modelled from the spec: vertical scope end field
(meson_registers.h, not under src/; position irrelevant to the claims). -/
def OSD1_AFBCD_DEC_PIXEL_END_V : Nat := 0xffff0000

/-- Modelled from the spec: manual-reset bit of MALI_AFBCD_TOP_CTRL
(meson_registers.h, not under src/). -/
def MALI_AFBCD_MANUAL_RESET : Nat := 2 ^ 14

/-- Modelled from the spec: G12A AFBC arbiter software-reset bit
(meson_registers.h, not under src/). -/
def VIU_SW_RESET_G12A_AFBC_ARB : Nat := 2 ^ 19

/-- Modelled from the spec: G12A OSD1 AFBC decoder software-reset bit
(meson_registers.h, not under src/). -/
def VIU_SW_RESET_G12A_OSD1_AFBCD : Nat := 2 ^ 28

/-- Modelled from the spec: surfaces-completed interrupt cause bit
(meson_registers.h, not under src/). -/
def VPU_MAFBC_IRQ_SURFACES_COMPLETED : Nat := 1

/-- Modelled from the spec: configuration-swapped interrupt cause bit
(meson_registers.h, not under src/). -/
def VPU_MAFBC_IRQ_CONFIGURATION_SWAPPED : Nat := 2

/-- Modelled from the spec: decode-error interrupt cause bit
(meson_registers.h, not under src/). -/
def VPU_MAFBC_IRQ_DECODE_ERROR : Nat := 4

/-- Modelled from the spec: detiling-error interrupt cause bit
(meson_registers.h, not under src/). -/
def VPU_MAFBC_IRQ_DETILING_ERROR : Nat := 8

/-- Modelled from the spec: surface-0 enable bit of VPU_MAFBC_SURFACE_CFG
(meson_registers.h, not under src/). -/
def VPU_MAFBC_S0_ENABLE : Nat := 1

/-- Modelled from the spec: direct-swap command bit of VPU_MAFBC_COMMAND
(meson_registers.h, not under src/). -/
def VPU_MAFBC_DIRECT_SWAP : Nat := 1

/-- Modelled from the spec: YUV-transform bit of the G12A format
specifier word (meson_registers.h, not under src/). -/
def VPU_MAFBC_YUV_TRANSFORM : Nat := 2 ^ 8

/-- Modelled from the spec: block-split bit of the G12A format specifier
word (meson_registers.h, not under src/). -/
def VPU_MAFBC_BLOCK_SPLIT : Nat := 2 ^ 9

/-- Modelled from the spec: superblock aspect field of the G12A format
specifier word (meson_registers.h, not under src/). -/
def VPU_MAFBC_SUPER_BLOCK_ASPECT : Nat := 0x30000

/-- Modelled from the spec: tiled-header-enable bit of the G12A format
specifier word (meson_registers.h, not under src/). -/
def VPU_MAFBC_TILED_HEADER_EN : Nat := 2 ^ 18

/-- Modelled from the spec: fixed platform physical address the decoded
surface lands at (meson_osd_afbcd.h, not under src/). -/
def MESON_G12A_AFBCD_OUT_ADDR : Nat := 0x1000000

/-- meson_gxm_afbcd_pixel_fmt (source lines 58-69): the two RGBA32
layouts map to the single internal code 0x15, everything else returns
-EINVAL.  The modifier parameter is taken but unused, as in the source. -/
def meson_gxm_afbcd_pixel_fmt (modifier format : Nat) : Int :=
  if format = DRM_FORMAT_XBGR8888 ∨ format = DRM_FORMAT_ABGR8888 then
    OSD1_AFBCD_RGB32
  else
    -EINVAL

/-- meson_gxm_afbcd_supported_fmt (source lines 71-80). -/
def meson_gxm_afbcd_supported_fmt (modifier format : Nat) : Bool :=
  if modifier &&& AFBC_FORMAT_MOD_BLOCK_SIZE_32x8 ≠ 0 then false
  else if modifier &&& AFBC_FORMAT_MOD_YTR = 0 then false
  else decide (0 ≤ meson_gxm_afbcd_pixel_fmt modifier format)

/-- meson_gxm_afbcd_init (source lines 82-85): no effect, returns 0. -/
def meson_gxm_afbcd_init : List Event × Int := ([], 0)

/-- meson_gxm_afbcd_reset (source lines 87-94). -/
def meson_gxm_afbcd_reset : List Event × Int :=
  ([.write .VIU_SW_RESET VIU_SW_RESET_OSD1_AFBCD,
    .write .VIU_SW_RESET 0], 0)

/-- meson_gxm_afbcd_enable (source lines 96-103). -/
def meson_gxm_afbcd_enable : List Event × Int :=
  ([.write .OSD1_AFBCD_ENABLE
      (fieldPrep OSD1_AFBCD_ID_FIFO_THRD 0x40 ||| OSD1_AFBCD_DEC_ENABLE)], 0)

/-- meson_gxm_afbcd_disable (source lines 105-111): a masked write
clearing the decode-enable bit. -/
def meson_gxm_afbcd_disable : List Event × Int :=
  ([.writeBits .OSD1_AFBCD_ENABLE OSD1_AFBCD_DEC_ENABLE 0], 0)

/-- meson_gxm_afbcd_setup (source lines 113-171).  The mode word ORs the
negotiation result into the fixed fields after conversion to u32 (the C
assignment to the u32 variable truncates); there is no validity check
before the writes, and the function always returns 0. -/
def meson_gxm_afbcd_setup (d : Desc) : List Event × Int :=
  let mode := fieldPrep OSD1_AFBCD_MIF_URGENT 3 |||
              fieldPrep OSD1_AFBCD_HOLD_LINE_NUM 4 |||
              fieldPrep OSD1_AFBCD_RGBA_EXCHAN_CTRL 0x34 |||
              u32ofInt (meson_gxm_afbcd_pixel_fmt d.modifier d.format)
  let mode := if d.modifier &&& AFBC_FORMAT_MOD_SPARSE ≠ 0 then
                mode ||| OSD1_AFBCD_HREG_HALF_BLOCK
              else mode
  let mode := if d.modifier &&& AFBC_FORMAT_MOD_SPLIT ≠ 0 then
                mode ||| OSD1_AFBCD_HREG_BLOCK_SPLIT
              else mode
  let conv_lbuf_len :=
    if d.width ≤ 128 then 32
    else if d.width ≤ 256 then 64
    else if d.width ≤ 512 then 128
    else if d.width ≤ 1024 then 256
    else if d.width ≤ 2048 then 512
    else 1024
  ([.write .OSD1_AFBCD_MODE mode,
    .write .OSD1_AFBCD_SIZE_IN
      (fieldPrep OSD1_AFBCD_HREG_VSIZE_IN d.width |||
       fieldPrep OSD1_AFBCD_HREG_HSIZE_IN d.height),
    .write .OSD1_AFBCD_HDR_PTR (d.addr >>> 4),
    .write .OSD1_AFBCD_FRAME_PTR (d.addr >>> 4),
    .write .OSD1_AFBCD_CHROMA_PTR ((0xe4 <<< 24) ||| (d.addr &&& 0xffffff)),
    .write .OSD1_AFBCD_CONV_CTRL conv_lbuf_len,
    .write .OSD1_AFBCD_PIXEL_HSCOPE
      (fieldPrep OSD1_AFBCD_DEC_PIXEL_BGN_H 0 |||
       fieldPrep OSD1_AFBCD_DEC_PIXEL_END_H (u32sub1 d.width)),
    .write .OSD1_AFBCD_PIXEL_VSCOPE
      (fieldPrep OSD1_AFBCD_DEC_PIXEL_BGN_V 0 |||
       fieldPrep OSD1_AFBCD_DEC_PIXEL_END_V (u32sub1 d.height))], 0)

/-- meson_g12a_afbcd_pixel_fmt (source lines 200-227).  The switch falls
through from the XRGB/ARGB cases (after their YTR check) into the
XBGR/ABGR cases, so all four return MAFBC_FMT_RGBA8888; YTR is rejected
for every format other than XBGR8888/ABGR8888. -/
def meson_g12a_afbcd_pixel_fmt (modifier format : Nat) : Int :=
  if format = DRM_FORMAT_XRGB8888 ∨ format = DRM_FORMAT_ARGB8888 then
    if modifier &&& AFBC_FORMAT_MOD_YTR ≠ 0 then -EINVAL
    else MAFBC_FMT_RGBA8888
  else if format = DRM_FORMAT_XBGR8888 ∨ format = DRM_FORMAT_ABGR8888 then
    MAFBC_FMT_RGBA8888
  else if format = DRM_FORMAT_RGB888 then
    if modifier &&& AFBC_FORMAT_MOD_YTR ≠ 0 then -EINVAL
    else MAFBC_FMT_RGB888
  else if format = DRM_FORMAT_RGB565 then
    if modifier &&& AFBC_FORMAT_MOD_YTR ≠ 0 then -EINVAL
    else MAFBC_FMT_RGB565
  else
    -EINVAL

/-- meson_g12a_afbcd_bpp (source lines 229-246): bits per pixel by
format; unsupported formats yield 0, not an errno. -/
def meson_g12a_afbcd_bpp (format : Nat) : Int :=
  if format = DRM_FORMAT_XRGB8888 ∨ format = DRM_FORMAT_ARGB8888 ∨
     format = DRM_FORMAT_XBGR8888 ∨ format = DRM_FORMAT_ABGR8888 then 32
  else if format = DRM_FORMAT_RGB888 then 24
  else if format = DRM_FORMAT_RGB565 then 16
  else 0

/-- meson_g12a_afbcd_fmt_to_blk_mode (source lines 248-265); the modifier
parameter is taken but unused, as in the source. -/
def meson_g12a_afbcd_fmt_to_blk_mode (modifier format : Nat) : Int :=
  if format = DRM_FORMAT_XRGB8888 ∨ format = DRM_FORMAT_ARGB8888 ∨
     format = DRM_FORMAT_XBGR8888 ∨ format = DRM_FORMAT_ABGR8888 then
    OSD_MALI_COLOR_MODE_RGBA8888
  else if format = DRM_FORMAT_RGB888 then OSD_MALI_COLOR_MODE_RGB888
  else if format = DRM_FORMAT_RGB565 then OSD_MALI_COLOR_MODE_RGB565
  else
    -EINVAL

/-- meson_g12a_afbcd_supported_fmt (source lines 267-270). -/
def meson_g12a_afbcd_supported_fmt (modifier format : Nat) : Bool :=
  decide (0 ≤ meson_g12a_afbcd_pixel_fmt modifier format)

/-- meson_g12a_afbcd_init (source lines 272-287): propagates a
meson_rdma_init failure before any further effect; on success it primes
the transport and pulses the manual-reset bit with a direct masked
write. -/
def meson_g12a_afbcd_init (r : Rdma) : List Event × Int :=
  if r.initRet ≠ 0 then ([.rdmaInit], r.initRet)
  else
    ([.rdmaInit, .rdmaSetup,
      .writeBits .MALI_AFBCD_TOP_CTRL MALI_AFBCD_MANUAL_RESET
        MALI_AFBCD_MANUAL_RESET], 0)

/-- meson_g12a_afbcd_reset (source lines 289-299). -/
def meson_g12a_afbcd_reset : List Event × Int :=
  ([.rdmaReset,
    .syncWrite .VIU_SW_RESET
      (VIU_SW_RESET_G12A_AFBC_ARB ||| VIU_SW_RESET_G12A_OSD1_AFBCD),
    .syncWrite .VIU_SW_RESET 0], 0)

/-- meson_g12a_afbcd_enable (source lines 301-319). -/
def meson_g12a_afbcd_enable : List Event × Int :=
  ([.syncWrite .VPU_MAFBC_IRQ_MASK
      (VPU_MAFBC_IRQ_SURFACES_COMPLETED |||
       VPU_MAFBC_IRQ_CONFIGURATION_SWAPPED |||
       VPU_MAFBC_IRQ_DECODE_ERROR |||
       VPU_MAFBC_IRQ_DETILING_ERROR),
    .syncWrite .VPU_MAFBC_SURFACE_CFG VPU_MAFBC_S0_ENABLE,
    .syncWrite .VPU_MAFBC_COMMAND VPU_MAFBC_DIRECT_SWAP,
    .rdmaFlush], 0)

/-- meson_g12a_afbcd_disable (source lines 321-327): a direct masked
write clearing the surface-0 enable bit. -/
def meson_g12a_afbcd_disable : List Event × Int :=
  ([.writeBits .VPU_MAFBC_SURFACE_CFG VPU_MAFBC_S0_ENABLE 0], 0)

/-- meson_g12a_afbcd_setup (source lines 329-379).  The u32 format
specifier starts from the (possibly negative, truncated) negotiation
result; no validity check precedes the synchronized writes and the
function always returns 0. -/
def meson_g12a_afbcd_setup (d : Desc) : List Event × Int :=
  let format := u32ofInt (meson_g12a_afbcd_pixel_fmt d.modifier d.format)
  let format := if d.modifier &&& AFBC_FORMAT_MOD_YTR ≠ 0 then
                  format ||| VPU_MAFBC_YUV_TRANSFORM
                else format
  let format := if d.modifier &&& AFBC_FORMAT_MOD_SPLIT ≠ 0 then
                  format ||| VPU_MAFBC_BLOCK_SPLIT
                else format
  let format := if d.modifier &&& AFBC_FORMAT_MOD_TILED ≠ 0 then
                  format ||| VPU_MAFBC_TILED_HEADER_EN
                else format
  let format := if d.modifier &&& AFBC_FORMAT_MOD_BLOCK_SIZE_MASK =
                   AFBC_FORMAT_MOD_BLOCK_SIZE_32x8 then
                  format ||| fieldPrep VPU_MAFBC_SUPER_BLOCK_ASPECT 1
                else format
  ([.syncWrite .VPU_MAFBC_FORMAT_SPECIFIER_S0 format,
    .syncWrite .VPU_MAFBC_HEADER_BUF_ADDR_LOW_S0 d.addr,
    .syncWrite .VPU_MAFBC_HEADER_BUF_ADDR_HIGH_S0 0,
    .syncWrite .VPU_MAFBC_BUFFER_WIDTH_S0 d.width,
    .syncWrite .VPU_MAFBC_BUFFER_HEIGHT_S0 (ALIGN32 d.height),
    .syncWrite .VPU_MAFBC_BOUNDING_BOX_X_START_S0 0,
    .syncWrite .VPU_MAFBC_BOUNDING_BOX_X_END_S0 (u32sub1 d.width),
    .syncWrite .VPU_MAFBC_BOUNDING_BOX_Y_START_S0 0,
    .syncWrite .VPU_MAFBC_BOUNDING_BOX_Y_END_S0 (u32sub1 d.height),
    .syncWrite .VPU_MAFBC_OUTPUT_BUF_ADDR_LOW_S0 MESON_G12A_AFBCD_OUT_ADDR,
    .syncWrite .VPU_MAFBC_OUTPUT_BUF_ADDR_HIGH_S0 0,
    .syncWrite .VPU_MAFBC_OUTPUT_BUF_STRIDE_S0
      ((d.width * (u32ofInt (meson_g12a_afbcd_bpp d.format) / 8)) %
        2 ^ 32)], 0)

/-- Value left in a register by a trace: the last direct or synchronized
write to it, if any. -/
def writtenVal (es : List Event) (r : Reg) : Option Nat :=
  es.foldl
    (fun acc e =>
      match e with
      | .write r2 v => if r2 = r then some v else acc
      | .syncWrite r2 v => if r2 = r then some v else acc
      | _ => acc)
    none

/-- Effect of one event on the 32-bit register image.  A masked write
follows writel_bits_relaxed: the masked bits of the old value are
cleared (complement taken within u32) and the new value is OR'd in.  A
synchronized write is modelled at its post-flush effect; transport
management events do not change the register image. -/
def applyEvent (s : Reg → Nat) : Event → (Reg → Nat)
  | .write r v => fun r2 => if r2 = r then v else s r2
  | .writeBits r mask v =>
      fun r2 => if r2 = r then (s r &&& (U32_MASK ^^^ mask)) ||| v else s r2
  | .syncWrite r v => fun r2 => if r2 = r then v else s r2
  | _ => s

/-- Register image after applying a whole trace. -/
def applyEvents (s : Reg → Nat) (es : List Event) : Reg → Nat :=
  es.foldl applyEvent s

/-- C1 counterexample: a descriptor whose format/modifier pair fails
negotiation (RGB565 with YTR on G12A, RGB565 without YTR on GXM) does
not make setup fail: both setups return 0 (success, not Unsupported) and
still perform their full sequence of register writes (12 synchronized
writes on G12A, 8 direct writes on GXM). -/
theorem c1_counterexample :
    meson_g12a_afbcd_supported_fmt AFBC_FORMAT_MOD_YTR DRM_FORMAT_RGB565 =
      false ∧
    (meson_g12a_afbcd_setup
      ⟨DRM_FORMAT_RGB565, AFBC_FORMAT_MOD_YTR, 0, 800, 480⟩).2 = 0 ∧
    (meson_g12a_afbcd_setup
      ⟨DRM_FORMAT_RGB565, AFBC_FORMAT_MOD_YTR, 0, 800, 480⟩).1.length = 12 ∧
    meson_gxm_afbcd_supported_fmt 0 DRM_FORMAT_RGB565 = false ∧
    (meson_gxm_afbcd_setup ⟨DRM_FORMAT_RGB565, 0, 0, 800, 480⟩).2 = 0 ∧
    (meson_gxm_afbcd_setup ⟨DRM_FORMAT_RGB565, 0, 0, 800, 480⟩).1.length =
      8 := by
  decide

/-- C1 (amended): neither generation's setup re-validates the descriptor.
For every descriptor, including those failing negotiation, setup returns
success (0) and performs its full fixed sequence of register writes; the
negotiation error code is folded into the mode/format-specifier word
instead of aborting the operation. -/
theorem c1_setup_never_rejects : ∀ d : Desc,
    (meson_gxm_afbcd_setup d).2 = 0 ∧
    (meson_gxm_afbcd_setup d).1.length = 8 ∧
    (meson_g12a_afbcd_setup d).2 = 0 ∧
    (meson_g12a_afbcd_setup d).1.length = 12 := by
  intro d
  exact ⟨rfl, rfl, rfl, rfl⟩

/-- C2: Generation-2 supported_fmt holds exactly when the format is in
the six-element supported set and YTR is either absent or the format is
one of the two YTR-compatible layouts; and the negotiation result is the
format's designated internal code when supported, -EINVAL otherwise. -/
theorem c2_g12a_supported_fmt_characterization : ∀ modifier format : Nat,
    (meson_g12a_afbcd_supported_fmt modifier format = true ↔
      ((format = DRM_FORMAT_XRGB8888 ∨ format = DRM_FORMAT_ARGB8888 ∨
        format = DRM_FORMAT_XBGR8888 ∨ format = DRM_FORMAT_ABGR8888 ∨
        format = DRM_FORMAT_RGB888 ∨ format = DRM_FORMAT_RGB565) ∧
       (modifier &&& AFBC_FORMAT_MOD_YTR = 0 ∨
        format = DRM_FORMAT_XBGR8888 ∨ format = DRM_FORMAT_ABGR8888))) ∧
    meson_g12a_afbcd_pixel_fmt modifier format =
      (if meson_g12a_afbcd_supported_fmt modifier format then
        (if format = DRM_FORMAT_RGB888 then MAFBC_FMT_RGB888
         else if format = DRM_FORMAT_RGB565 then MAFBC_FMT_RGB565
         else MAFBC_FMT_RGBA8888)
      else -EINVAL) := by
  intro m f
  by_cases hy : m &&& AFBC_FORMAT_MOD_YTR = 0 <;>
  by_cases h1 : f = DRM_FORMAT_XRGB8888 <;>
  by_cases h2 : f = DRM_FORMAT_ARGB8888 <;>
  by_cases h3 : f = DRM_FORMAT_XBGR8888 <;>
  by_cases h4 : f = DRM_FORMAT_ABGR8888 <;>
  by_cases h5 : f = DRM_FORMAT_RGB888 <;>
  by_cases h6 : f = DRM_FORMAT_RGB565 <;>
  simp_all [meson_g12a_afbcd_supported_fmt, meson_g12a_afbcd_pixel_fmt,
    DRM_FORMAT_XRGB8888, DRM_FORMAT_ARGB8888, DRM_FORMAT_XBGR8888,
    DRM_FORMAT_ABGR8888, DRM_FORMAT_RGB888, DRM_FORMAT_RGB565,
    MAFBC_FMT_RGBA8888, MAFBC_FMT_RGB888, MAFBC_FMT_RGB565, EINVAL]

/-- C3: Generation-1 supported_fmt holds exactly when the format is one
of the two RGBA32 layouts, the YTR flag is set and the 32x8 wide
superblock flag bit is clear; the negotiation result is the single
internal code 0x15 for the two layouts and -EINVAL otherwise. -/
theorem c3_gxm_supported_fmt_characterization : ∀ modifier format : Nat,
    (meson_gxm_afbcd_supported_fmt modifier format = true ↔
      ((format = DRM_FORMAT_XBGR8888 ∨ format = DRM_FORMAT_ABGR8888) ∧
        modifier &&& AFBC_FORMAT_MOD_YTR ≠ 0 ∧
        modifier &&& AFBC_FORMAT_MOD_BLOCK_SIZE_32x8 = 0)) ∧
    meson_gxm_afbcd_pixel_fmt modifier format =
      (if format = DRM_FORMAT_XBGR8888 ∨ format = DRM_FORMAT_ABGR8888 then
        OSD1_AFBCD_RGB32
      else -EINVAL) := by
  intro m f
  refine ⟨?_, rfl⟩
  by_cases h32 : m &&& AFBC_FORMAT_MOD_BLOCK_SIZE_32x8 = 0 <;>
  by_cases hy : m &&& AFBC_FORMAT_MOD_YTR = 0 <;>
  by_cases hf : f = DRM_FORMAT_XBGR8888 ∨ f = DRM_FORMAT_ABGR8888 <;>
  simp_all [meson_gxm_afbcd_supported_fmt, meson_gxm_afbcd_pixel_fmt,
    OSD1_AFBCD_RGB32, EINVAL]

/-- C4 counterexample: the three Generation-2 lookups do not signal
errors the same way, and their validity does not agree for every format
at every modifier.  At an unsupported format (code 0) the internal-code
and block-mode lookups return -EINVAL while bpp returns 0; and with the
YTR flag set, XRGB8888 is invalid for the internal-code lookup yet valid
for both the bpp and block-mode lookups. -/
theorem c4_counterexample :
    meson_g12a_afbcd_pixel_fmt 0 0 = -EINVAL ∧
    meson_g12a_afbcd_fmt_to_blk_mode 0 0 = -EINVAL ∧
    meson_g12a_afbcd_bpp 0 = 0 ∧
    meson_g12a_afbcd_bpp 0 ≠ meson_g12a_afbcd_pixel_fmt 0 0 ∧
    meson_g12a_afbcd_pixel_fmt AFBC_FORMAT_MOD_YTR DRM_FORMAT_XRGB8888 =
      -EINVAL ∧
    meson_g12a_afbcd_bpp DRM_FORMAT_XRGB8888 = 32 ∧
    0 ≤ meson_g12a_afbcd_fmt_to_blk_mode AFBC_FORMAT_MOD_YTR
      DRM_FORMAT_XRGB8888 := by
  decide

/-- C4 (amended): for every modifier with the YTR flag clear, the three
Generation-2 lookups agree on validity for every format: the format
yields a nonnegative internal code iff it yields a nonzero bpp iff it
yields a nonnegative block mode.  Unsupported formats are signalled
differently: bpp returns 0 while the other two lookups return -EINVAL,
and with YTR set the internal-code lookup rejects formats the other two
still accept. -/
theorem c4_lookup_validity_agreement (modifier format : Nat)
    (hytr : modifier &&& AFBC_FORMAT_MOD_YTR = 0) :
    (0 ≤ meson_g12a_afbcd_pixel_fmt modifier format ↔
      meson_g12a_afbcd_bpp format ≠ 0) ∧
    (0 ≤ meson_g12a_afbcd_pixel_fmt modifier format ↔
      0 ≤ meson_g12a_afbcd_fmt_to_blk_mode modifier format) := by
  by_cases h1 : format = DRM_FORMAT_XRGB8888 <;>
  by_cases h2 : format = DRM_FORMAT_ARGB8888 <;>
  by_cases h3 : format = DRM_FORMAT_XBGR8888 <;>
  by_cases h4 : format = DRM_FORMAT_ABGR8888 <;>
  by_cases h5 : format = DRM_FORMAT_RGB888 <;>
  by_cases h6 : format = DRM_FORMAT_RGB565 <;>
  simp_all [meson_g12a_afbcd_pixel_fmt, meson_g12a_afbcd_bpp,
    meson_g12a_afbcd_fmt_to_blk_mode,
    DRM_FORMAT_XRGB8888, DRM_FORMAT_ARGB8888, DRM_FORMAT_XBGR8888,
    DRM_FORMAT_ABGR8888, DRM_FORMAT_RGB888, DRM_FORMAT_RGB565,
    MAFBC_FMT_RGBA8888, MAFBC_FMT_RGB888, MAFBC_FMT_RGB565,
    OSD_MALI_COLOR_MODE_RGBA8888, OSD_MALI_COLOR_MODE_RGB888,
    OSD_MALI_COLOR_MODE_RGB565, EINVAL]

/-- Witness for C4 (amended) at modifier 0 and format RGB565. -/
theorem c4_lookup_validity_agreement_witness :
    (0 ≤ meson_g12a_afbcd_pixel_fmt 0 DRM_FORMAT_RGB565 ↔
      meson_g12a_afbcd_bpp DRM_FORMAT_RGB565 ≠ 0) ∧
    (0 ≤ meson_g12a_afbcd_pixel_fmt 0 DRM_FORMAT_RGB565 ↔
      0 ≤ meson_g12a_afbcd_fmt_to_blk_mode 0 DRM_FORMAT_RGB565) :=
  c4_lookup_validity_agreement 0 DRM_FORMAT_RGB565 (by decide)

/-- C5: the Generation-2 operations propagate synchronized-transport
failures unchanged and never retry.  The only fallible transport
primitive, meson_rdma_init, is invoked exactly once by init, whose
return value is exactly the primitive's return value (so init succeeds
iff the transport call succeeded and the error is propagated unchanged);
reset and enable invoke only infallible transport primitives and return
success. -/
theorem c5_transport_error_propagation : ∀ r : Rdma,
    (meson_g12a_afbcd_init r).2 = r.initRet ∧
    (meson_g12a_afbcd_init r).1.count .rdmaInit = 1 ∧
    meson_g12a_afbcd_reset.2 = 0 ∧
    meson_g12a_afbcd_enable.2 = 0 := by
  intro r
  refine ⟨?_, ?_, rfl, rfl⟩ <;>
  · by_cases h : r.initRet = 0 <;> simp [meson_g12a_afbcd_init, h] <;>
      decide

/-- C9: for both generations, disable is idempotent on the register
image: running the disable trace twice from any state leaves exactly the
state reached after running it once (the second masked write clears an
already-clear enable bit and changes nothing else), and disable always
returns success. -/
theorem c9_disable_idempotent : ∀ s : Reg → Nat,
    applyEvents s (meson_gxm_afbcd_disable.1 ++ meson_gxm_afbcd_disable.1) =
      applyEvents s meson_gxm_afbcd_disable.1 ∧
    applyEvents s
      (meson_g12a_afbcd_disable.1 ++ meson_g12a_afbcd_disable.1) =
      applyEvents s meson_g12a_afbcd_disable.1 ∧
    meson_gxm_afbcd_disable.2 = 0 ∧
    meson_g12a_afbcd_disable.2 = 0 := by
  intro s
  refine ⟨?_, ?_, rfl, rfl⟩ <;>
  · funext r
    simp only [meson_gxm_afbcd_disable, meson_g12a_afbcd_disable,
      applyEvents, List.append_eq, List.cons_append, List.nil_append,
      List.foldl, applyEvent]
    by_cases hr1 : r = Reg.OSD1_AFBCD_ENABLE <;>
    by_cases hr2 : r = Reg.VPU_MAFBC_SURFACE_CFG <;>
    simp_all [Nat.or_zero, Nat.and_assoc, Nat.and_self]

/-- OR of a left-shifted value with a value below the shift amount is
plain addition (the two operands occupy disjoint bit ranges). -/
theorem shiftLeft_lor_eq_add (x y k : Nat) (hy : y < 2 ^ k) :
    (x <<< k) ||| y = x * 2 ^ k + y := by
  rw [Nat.mul_comm x (2 ^ k)]
  apply Nat.eq_of_testBit_eq
  intro i
  rcases Nat.lt_or_ge i k with hik | hik
  · rw [Nat.testBit_or, Nat.testBit_shiftLeft,
      Nat.testBit_mul_pow_two_add x hy, if_pos hik]
    simp [Nat.not_le.mpr hik]
  · rw [Nat.testBit_or, Nat.testBit_shiftLeft,
      Nat.testBit_mul_pow_two_add x hy, if_neg (Nat.not_lt.mpr hik)]
    have hyi : y < 2 ^ i :=
      lt_of_lt_of_le hy (Nat.pow_le_pow_right (by omega) hik)
    simp [Nat.testBit_lt_two_pow hyi, hik]

/-- AND distributes over a common left shift. -/
theorem land_shiftLeft_shiftLeft (a b k : Nat) :
    (a <<< k) &&& (b <<< k) = (a &&& b) <<< k := by
  apply Nat.eq_of_testBit_eq
  intro i
  rw [Nat.testBit_and, Nat.testBit_shiftLeft, Nat.testBit_shiftLeft,
    Nat.testBit_shiftLeft, Nat.testBit_and]
  by_cases h : k ≤ i <;> simp [h]

/-- C6: Generation-1 setup writes the conversion line-buffer length
register with the monotonic step-table value of the width: at most
128 gives 32, at most 256 gives 64, at most 512 gives 128, at most 1024
gives 256, at most 2048 gives 512, and larger widths give 1024. -/
theorem c6_gxm_conv_lbuf_len_step_table : ∀ d : Desc,
    (d.width ≤ 128 →
      writtenVal (meson_gxm_afbcd_setup d).1 .OSD1_AFBCD_CONV_CTRL =
        some 32) ∧
    (128 < d.width → d.width ≤ 256 →
      writtenVal (meson_gxm_afbcd_setup d).1 .OSD1_AFBCD_CONV_CTRL =
        some 64) ∧
    (256 < d.width → d.width ≤ 512 →
      writtenVal (meson_gxm_afbcd_setup d).1 .OSD1_AFBCD_CONV_CTRL =
        some 128) ∧
    (512 < d.width → d.width ≤ 1024 →
      writtenVal (meson_gxm_afbcd_setup d).1 .OSD1_AFBCD_CONV_CTRL =
        some 256) ∧
    (1024 < d.width → d.width ≤ 2048 →
      writtenVal (meson_gxm_afbcd_setup d).1 .OSD1_AFBCD_CONV_CTRL =
        some 512) ∧
    (2048 < d.width →
      writtenVal (meson_gxm_afbcd_setup d).1 .OSD1_AFBCD_CONV_CTRL =
        some 1024) := by
  intro d
  have hv : writtenVal (meson_gxm_afbcd_setup d).1 .OSD1_AFBCD_CONV_CTRL =
      some (if d.width ≤ 128 then 32 else if d.width ≤ 256 then 64
        else if d.width ≤ 512 then 128 else if d.width ≤ 1024 then 256
        else if d.width ≤ 2048 then 512 else 1024) := by
    simp [meson_gxm_afbcd_setup, writtenVal]
  refine ⟨fun h1 => ?_, fun h1 h2 => ?_, fun h1 h2 => ?_, fun h1 h2 => ?_,
    fun h1 h2 => ?_, fun h1 => ?_⟩
  · rw [hv, if_pos h1]
  · rw [hv, if_neg (by omega), if_pos h2]
  · rw [hv, if_neg (by omega), if_neg (by omega), if_pos h2]
  · rw [hv, if_neg (by omega), if_neg (by omega), if_neg (by omega),
      if_pos h2]
  · rw [hv, if_neg (by omega), if_neg (by omega), if_neg (by omega),
      if_neg (by omega), if_pos h2]
  · rw [hv, if_neg (by omega), if_neg (by omega), if_neg (by omega),
      if_neg (by omega), if_neg (by omega)]

/-- Witness for C6 at the step-table boundary: width 1024 yields a
line-buffer length of 256, width 1025 yields 512. -/
theorem c6_gxm_conv_lbuf_len_step_table_witness :
    writtenVal (meson_gxm_afbcd_setup ⟨0, 0, 0, 1024, 0⟩).1
      .OSD1_AFBCD_CONV_CTRL = some 256 ∧
    writtenVal (meson_gxm_afbcd_setup ⟨0, 0, 0, 1025, 0⟩).1
      .OSD1_AFBCD_CONV_CTRL = some 512 :=
  ⟨(c6_gxm_conv_lbuf_len_step_table ⟨0, 0, 0, 1024, 0⟩).2.2.2.1
      (by decide) (by decide),
   (c6_gxm_conv_lbuf_len_step_table ⟨0, 0, 0, 1025, 0⟩).2.2.2.2.1
      (by decide) (by decide)⟩

/-- C7: Generation-2 setup writes the buffer width unchanged and the
buffer height rounded up to the next multiple of 32 (for every height
whose rounded value fits in u32), while the bounding box is written as
0 to width - 1 and 0 to height - 1 with the un-rounded height; height
480 is written as 480 and height 481 as 512. -/
theorem c7_g12a_buffer_geometry : ∀ d : Desc,
    writtenVal (meson_g12a_afbcd_setup d).1 .VPU_MAFBC_BUFFER_WIDTH_S0 =
      some d.width ∧
    (d.height + 31 < 2 ^ 32 →
      writtenVal (meson_g12a_afbcd_setup d).1 .VPU_MAFBC_BUFFER_HEIGHT_S0 =
        some (((d.height + 31) / 32) * 32) ∧
      d.height ≤ ((d.height + 31) / 32) * 32 ∧
      ((d.height + 31) / 32) * 32 % 32 = 0 ∧
      ((d.height + 31) / 32) * 32 < d.height + 32) ∧
    writtenVal (meson_g12a_afbcd_setup d).1
      .VPU_MAFBC_BOUNDING_BOX_X_START_S0 = some 0 ∧
    (1 ≤ d.width → d.width < 2 ^ 32 →
      writtenVal (meson_g12a_afbcd_setup d).1
        .VPU_MAFBC_BOUNDING_BOX_X_END_S0 = some (d.width - 1)) ∧
    writtenVal (meson_g12a_afbcd_setup d).1
      .VPU_MAFBC_BOUNDING_BOX_Y_START_S0 = some 0 ∧
    (1 ≤ d.height → d.height < 2 ^ 32 →
      writtenVal (meson_g12a_afbcd_setup d).1
        .VPU_MAFBC_BOUNDING_BOX_Y_END_S0 = some (d.height - 1)) ∧
    writtenVal (meson_g12a_afbcd_setup ⟨0, 0, 0, 800, 480⟩).1
      .VPU_MAFBC_BUFFER_HEIGHT_S0 = some 480 ∧
    writtenVal (meson_g12a_afbcd_setup ⟨0, 0, 0, 800, 481⟩).1
      .VPU_MAFBC_BUFFER_HEIGHT_S0 = some 512 := by
  intro d
  have h32 : (2 : Nat) ^ 32 = 4294967296 := by norm_num
  have hw : writtenVal (meson_g12a_afbcd_setup d).1
      .VPU_MAFBC_BUFFER_WIDTH_S0 = some d.width := by
    simp [meson_g12a_afbcd_setup, writtenVal]
  have hh : writtenVal (meson_g12a_afbcd_setup d).1
      .VPU_MAFBC_BUFFER_HEIGHT_S0 = some (ALIGN32 d.height) := by
    simp [meson_g12a_afbcd_setup, writtenVal]
  have hx0 : writtenVal (meson_g12a_afbcd_setup d).1
      .VPU_MAFBC_BOUNDING_BOX_X_START_S0 = some 0 := by
    simp [meson_g12a_afbcd_setup, writtenVal]
  have hx1 : writtenVal (meson_g12a_afbcd_setup d).1
      .VPU_MAFBC_BOUNDING_BOX_X_END_S0 = some (u32sub1 d.width) := by
    simp [meson_g12a_afbcd_setup, writtenVal]
  have hy0 : writtenVal (meson_g12a_afbcd_setup d).1
      .VPU_MAFBC_BOUNDING_BOX_Y_START_S0 = some 0 := by
    simp [meson_g12a_afbcd_setup, writtenVal]
  have hy1 : writtenVal (meson_g12a_afbcd_setup d).1
      .VPU_MAFBC_BOUNDING_BOX_Y_END_S0 = some (u32sub1 d.height) := by
    simp [meson_g12a_afbcd_setup, writtenVal]
  refine ⟨hw, fun hb => ⟨?_, by omega, by omega, by omega⟩, hx0,
    fun h1 h2 => ?_, hy0, fun h1 h2 => ?_,
    by simp [meson_g12a_afbcd_setup, writtenVal, ALIGN32],
    by simp [meson_g12a_afbcd_setup, writtenVal, ALIGN32]⟩
  · rw [hh]
    unfold ALIGN32
    rw [Nat.mod_eq_of_lt hb]
  · rw [hx1]
    unfold u32sub1
    simp only [Option.some.injEq]
    omega
  · rw [hy1]
    unfold u32sub1
    simp only [Option.some.injEq]
    omega

/-- Witness for C7 at width 800, height 481: the height register gets
the rounded value 512 while the bounding-box bottom edge keeps the
un-rounded 480. -/
theorem c7_g12a_buffer_geometry_witness :
    writtenVal (meson_g12a_afbcd_setup ⟨0, 0, 0, 800, 481⟩).1
      .VPU_MAFBC_BUFFER_HEIGHT_S0 = some (((481 + 31) / 32) * 32) ∧
    writtenVal (meson_g12a_afbcd_setup ⟨0, 0, 0, 800, 481⟩).1
      .VPU_MAFBC_BOUNDING_BOX_Y_END_S0 = some (481 - 1) :=
  ⟨((c7_g12a_buffer_geometry ⟨0, 0, 0, 800, 481⟩).2.1 (by norm_num)).1,
   (c7_g12a_buffer_geometry ⟨0, 0, 0, 800, 481⟩).2.2.2.2.2.1
      (by norm_num) (by norm_num)⟩

/-- C8: Generation-1 setup packs the size-in register with the input
width in the vertical-size field (the upper halfword, per the
vertical-then-horizontal field order) and the input height in the
horizontal-size field (the lower halfword); the header and frame
pointers both receive the base address shifted right by 4, and the
chroma pointer packs the constant 0xe4 in bits 31:24 with the low 24
bits of the un-shifted address. -/
theorem c8_gxm_size_in_and_pointers : ∀ d : Desc,
    (d.width < 2 ^ 16 → d.height < 2 ^ 16 →
      writtenVal (meson_gxm_afbcd_setup d).1 .OSD1_AFBCD_SIZE_IN =
        some (d.width * 2 ^ 16 + d.height) ∧
      (d.width * 2 ^ 16 + d.height) >>> 16 = d.width ∧
      (d.width * 2 ^ 16 + d.height) &&& 0xffff = d.height) ∧
    writtenVal (meson_gxm_afbcd_setup d).1 .OSD1_AFBCD_HDR_PTR =
      some (d.addr >>> 4) ∧
    writtenVal (meson_gxm_afbcd_setup d).1 .OSD1_AFBCD_FRAME_PTR =
      some (d.addr >>> 4) ∧
    writtenVal (meson_gxm_afbcd_setup d).1 .OSD1_AFBCD_CHROMA_PTR =
      some (0xe4 * 2 ^ 24 + d.addr % 2 ^ 24) ∧
    (0xe4 * 2 ^ 24 + d.addr % 2 ^ 24) >>> 24 = 0xe4 ∧
    (0xe4 * 2 ^ 24 + d.addr % 2 ^ 24) &&& 0xffffff = d.addr % 2 ^ 24 := by
  intro d
  have hv : writtenVal (meson_gxm_afbcd_setup d).1 .OSD1_AFBCD_SIZE_IN =
      some (fieldPrep OSD1_AFBCD_HREG_VSIZE_IN d.width |||
        fieldPrep OSD1_AFBCD_HREG_HSIZE_IN d.height) := by
    simp [meson_gxm_afbcd_setup, writtenVal]
  have hhdr : writtenVal (meson_gxm_afbcd_setup d).1 .OSD1_AFBCD_HDR_PTR =
      some (d.addr >>> 4) := by
    simp [meson_gxm_afbcd_setup, writtenVal]
  have hfrm : writtenVal (meson_gxm_afbcd_setup d).1 .OSD1_AFBCD_FRAME_PTR =
      some (d.addr >>> 4) := by
    simp [meson_gxm_afbcd_setup, writtenVal]
  have hchr : writtenVal (meson_gxm_afbcd_setup d).1
      .OSD1_AFBCD_CHROMA_PTR =
      some ((0xe4 <<< 24) ||| (d.addr &&& 0xffffff)) := by
    simp [meson_gxm_afbcd_setup, writtenVal]
  have hlow : d.addr &&& 0xffffff = d.addr % 2 ^ 24 := by
    rw [show (0xffffff : Nat) = 2 ^ 24 - 1 from by norm_num,
      Nat.and_pow_two_sub_one_eq_mod]
  have hmod : d.addr % 2 ^ 24 < 2 ^ 24 := Nat.mod_lt _ (by norm_num)
  have hchrv : (0xe4 <<< 24) ||| (d.addr &&& 0xffffff) =
      0xe4 * 2 ^ 24 + d.addr % 2 ^ 24 := by
    rw [hlow, shiftLeft_lor_eq_add _ _ _ hmod]
  refine ⟨fun hw hh => ?_, hhdr, hfrm, by rw [hchr, hchrv], ?_, ?_⟩
  · have h1 : fieldPrep OSD1_AFBCD_HREG_VSIZE_IN d.width =
        (d.width &&& 0xffff) <<< 16 := by
      show (d.width * lowestSetBit OSD1_AFBCD_HREG_VSIZE_IN) &&&
          OSD1_AFBCD_HREG_VSIZE_IN = _
      rw [show lowestSetBit OSD1_AFBCD_HREG_VSIZE_IN = 65536 from by decide,
        show (OSD1_AFBCD_HREG_VSIZE_IN : Nat) = 0xffff <<< 16 from by decide,
        show d.width * 65536 = d.width <<< 16 from by
          rw [Nat.shiftLeft_eq],
        land_shiftLeft_shiftLeft]
    have h2 : fieldPrep OSD1_AFBCD_HREG_HSIZE_IN d.height =
        d.height % 2 ^ 16 := by
      show (d.height * lowestSetBit OSD1_AFBCD_HREG_HSIZE_IN) &&&
          OSD1_AFBCD_HREG_HSIZE_IN = _
      rw [show lowestSetBit OSD1_AFBCD_HREG_HSIZE_IN = 1 from by decide,
        Nat.mul_one,
        show (OSD1_AFBCD_HREG_HSIZE_IN : Nat) = 2 ^ 16 - 1 from by decide,
        Nat.and_pow_two_sub_one_eq_mod]
    have h3 : d.width &&& 0xffff = d.width := by
      rw [show (0xffff : Nat) = 2 ^ 16 - 1 from by norm_num,
        Nat.and_pow_two_sub_one_eq_mod, Nat.mod_eq_of_lt hw]
    refine ⟨?_, ?_, ?_⟩
    · rw [hv, h1, h2, h3, Nat.mod_eq_of_lt hh,
        shiftLeft_lor_eq_add _ _ _ hh]
    · rw [Nat.shiftRight_eq_div_pow, Nat.mul_comm,
        Nat.mul_add_div (by norm_num), Nat.div_eq_of_lt hh, Nat.add_zero]
    · rw [show (0xffff : Nat) = 2 ^ 16 - 1 from by norm_num,
        Nat.and_pow_two_sub_one_eq_mod, Nat.mul_comm, Nat.mul_add_mod,
        Nat.mod_eq_of_lt hh]
  · rw [Nat.shiftRight_eq_div_pow, Nat.mul_comm,
      Nat.mul_add_div (by norm_num), Nat.div_eq_of_lt hmod, Nat.add_zero]
  · rw [show (0xffffff : Nat) = 2 ^ 24 - 1 from by norm_num,
      Nat.and_pow_two_sub_one_eq_mod, Nat.mul_comm, Nat.mul_add_mod,
      Nat.mod_eq_of_lt hmod]

/-- Witness for C8 at width 800, height 480, address 0x87654321. -/
theorem c8_gxm_size_in_and_pointers_witness :
    writtenVal (meson_gxm_afbcd_setup
      ⟨0, 0, 0x87654321, 800, 480⟩).1 .OSD1_AFBCD_SIZE_IN =
      some (800 * 2 ^ 16 + 480) ∧
    (800 * 2 ^ 16 + 480) >>> 16 = 800 ∧
    (800 * 2 ^ 16 + 480) &&& 0xffff = 480 :=
  (c8_gxm_size_in_and_pointers ⟨0, 0, 0x87654321, 800, 480⟩).1
    (by norm_num) (by norm_num)

/-- C10: on Generation-2, toggling the SPARSE modifier flag with all
other inputs unchanged changes neither the negotiation result nor
anything setup does (return value or any written register value); by
contrast, on Generation-1 toggling SPARSE does change the mode word
written by setup (the half-block bit). -/
theorem c10_g12a_ignores_sparse_flag : ∀ d : Desc,
    meson_g12a_afbcd_supported_fmt
      (d.modifier ^^^ AFBC_FORMAT_MOD_SPARSE) d.format =
      meson_g12a_afbcd_supported_fmt d.modifier d.format ∧
    meson_g12a_afbcd_setup
      { d with modifier := d.modifier ^^^ AFBC_FORMAT_MOD_SPARSE } =
      meson_g12a_afbcd_setup d ∧
    meson_gxm_afbcd_setup
      ⟨DRM_FORMAT_ABGR8888, AFBC_FORMAT_MOD_YTR ^^^ AFBC_FORMAT_MOD_SPARSE,
        0, 800, 480⟩ ≠
    meson_gxm_afbcd_setup
      ⟨DRM_FORMAT_ABGR8888, AFBC_FORMAT_MOD_YTR, 0, 800, 480⟩ := by
  intro d
  have hbit : ∀ c : Nat, AFBC_FORMAT_MOD_SPARSE &&& c = 0 →
      (d.modifier ^^^ AFBC_FORMAT_MOD_SPARSE) &&& c = d.modifier &&& c := by
    intro c h
    rw [Nat.and_xor_distrib_right, h, Nat.xor_zero]
  have hy := hbit AFBC_FORMAT_MOD_YTR (by decide)
  have hs := hbit AFBC_FORMAT_MOD_SPLIT (by decide)
  have ht := hbit AFBC_FORMAT_MOD_TILED (by decide)
  have hb := hbit AFBC_FORMAT_MOD_BLOCK_SIZE_MASK (by decide)
  have hpf : meson_g12a_afbcd_pixel_fmt
      (d.modifier ^^^ AFBC_FORMAT_MOD_SPARSE) d.format =
      meson_g12a_afbcd_pixel_fmt d.modifier d.format := by
    unfold meson_g12a_afbcd_pixel_fmt
    rw [hy]
  refine ⟨?_, ?_, by decide⟩
  · simp only [meson_g12a_afbcd_supported_fmt, hpf]
  · simp only [meson_g12a_afbcd_setup, hpf, hy, hs, ht, hb]

end MesonOsdAfbcd
